import Mathlib

/-!
Shallow embedding of `src/atlas_pipeline.py` (Minikube + GitHub Actions
orchestration pipeline) and verification of its specification claims.

External commands are modelled by a `World` oracle: the outcome of the
i-th external invocation of command `c` is `World.exec i c`, and the
success of the workflow-file write is `World.writeOk`.  Every pipeline
function is embedded as a Lean function from a `World` and a starting
call index to `(result, event trace, next call index)`; a Python
exception propagating out of a function is an `Except.error`.
-/

namespace Atlas

/-- Configurable parameter `NAMESPACE` (atlas_pipeline.py line 19). -/
def NAMESPACE : String := "atlas"

/-- Configurable parameter `NODE_PORT` (line 20). -/
def NODE_PORT : Nat := 30080

/-- Configurable parameter `IMAGE_LOCAL` (line 21). -/
def IMAGE_LOCAL : String := "atlas-app:latest"

/-- Configurable parameter `GITHUB_WORKFLOW` (line 22). -/
def GITHUB_WORKFLOW : String := ".github/workflows/ci-atlas.yaml"

/-- Outcome of one external command invocation, decided by the world:
either success with captured stdout, or a nonzero exit
(`subprocess.CalledProcessError`) carrying the failure reason text. -/
inductive CmdOutcome where
  | ok (stdout : String)
  | err (reason : String)
deriving DecidableEq

/-- The external world: `exec i c` is the outcome of the i-th external
invocation when it runs command `c`; `writeOk` tells whether writing the
workflow file succeeds. -/
structure World where
  exec : Nat → String → CmdOutcome
  writeOk : Bool

/-- Observable events of a pipeline run: an executed external command, a
sleep of a duration in seconds, a console log line, a file write. -/
inductive Event where
  | cmd (c : String)
  | sleep (secs : Nat)
  | echo (msg : String)
  | write (path : String) (content : String)
deriving DecidableEq

/-- A Python exception escaping a pipeline function:
`cpe c` is a `subprocess.CalledProcessError` for command `c` (caught by
`except Exception` in main), `exitMsg m` is `sys.exit(m)` (a
`SystemExit`, not caught by `except Exception`), `ioErr p` is an OS
error while writing path `p`. -/
inductive PipeError where
  | cpe (cmd : String)
  | exitMsg (msg : String)
  | ioErr (path : String)
deriving DecidableEq

/-- Result of running one pipeline function: the value or escaped
exception, the emitted events in order, and the next call index. -/
abbrev Run (α : Type) := Except PipeError α × List Event × Nat

/-- `run` (lines 25-32): print the command line, execute it, and on a
nonzero exit print a diagnostic and re-raise the `CalledProcessError`. -/
def run (w : World) (n : Nat) (cmd : String) : Run Unit :=
  match w.exec n cmd with
  | .ok _ => (.ok (), [.echo ("$ " ++ cmd), .cmd cmd], n + 1)
  | .err _ => (.error (.cpe cmd),
      [.echo ("$ " ++ cmd), .cmd cmd, .echo ("❌ Command failed: " ++ cmd)],
      n + 1)

/-- The Minikube status query command (line 43). -/
def statusCmd : String :=
  "minikube status --format \x27\x7b\x7b.Host\x7d\x7d\x27"

/-- The Minikube start command (line 46). -/
def startCmd : String := "minikube start --driver=docker"

/-- The kubectl context-switch command (line 47). -/
def useContextCmd : String := "kubectl config use-context minikube"

/-- The node-list command (line 48). -/
def getNodesCmd : String := "kubectl get nodes"

/-- `setup_minikube` (lines 35-48): query status; if the status command
fails, log and start Minikube; then switch the kubectl context and list
nodes.  Any escaped `CalledProcessError` aborts the step. -/
def setup_minikube (w : World) (n : Nat) : Run Unit :=
  let rest : Nat → List Event → Run Unit := fun n1 ev1 =>
    match run w n1 useContextCmd with
    | (.error e, ev2, n2) => (.error e, ev1 ++ ev2, n2)
    | (.ok _, ev2, n2) =>
      match run w n2 getNodesCmd with
      | (r, ev3, n3) => (r, ev1 ++ ev2 ++ ev3, n3)
  match run w n statusCmd with
  | (.ok _, ev1, n1) => rest n1 ev1
  | (.error _, ev1, n1) =>
    let msg : Event := .echo "ℹ️  Minikube not running; starting with Docker driver..."
    match run w n1 startCmd with
    | (.error e, ev2, n2) => (.error e, ev1 ++ msg :: ev2, n2)
    | (.ok _, ev2, n2) => rest n2 (ev1 ++ msg :: ev2)

/-- The namespace-creation command (line 58). -/
def nsCreateCmd : String := "kubectl create namespace " ++ NAMESPACE

/-- The manifest-apply command for namespace `ns` and manifest path `p`
(lines 63 and 66). -/
def applyCmd (ns p : String) : String :=
  "kubectl apply -n " ++ ns ++ " -f " ++ p

/-- The Deployment manifest path (line 63). -/
def deploymentManifest : String := "k8s/atlas-deployment.yaml"

/-- The NodePort Service manifest path (line 66). -/
def serviceManifest : String := "k8s/atlas-service-nodeport.yaml"

/-- Manifest application (the pattern of lines 62-66): apply each path
in order via `run`; a `CalledProcessError` escaping `run` aborts the
remaining manifests. -/
def applyManifests (w : World) (n : Nat) (ns : String) :
    List String → Run Unit
  | [] => (.ok (), [], n)
  | p :: ps =>
    match run w n (applyCmd ns p) with
    | (.error e, ev, n1) => (.error e, ev, n1)
    | (.ok _, ev, n1) =>
      match applyManifests w n1 ns ps with
      | (r, ev2, n2) => (r, ev ++ ev2, n2)

/-- `deploy_minikube` (lines 51-66): create the namespace, tolerating a
`CalledProcessError` with an informational log; then apply the
Deployment and Service manifests in order. -/
def deploy_minikube (w : World) (n : Nat) : Run Unit :=
  let step2 : Nat → List Event → Run Unit := fun n1 ev1 =>
    let ev1 := ev1 ++ [.echo "👉 Applying Deployment manifest..."]
    match run w n1 (applyCmd NAMESPACE deploymentManifest) with
    | (.error e, ev2, n2) => (.error e, ev1 ++ ev2, n2)
    | (.ok _, ev2, n2) =>
      let ev2 := ev2 ++ [.echo "👉 Applying Service manifest..."]
      match run w n2 (applyCmd NAMESPACE serviceManifest) with
      | (r, ev3, n3) => (r, ev1 ++ ev2 ++ ev3, n3)
  match run w n nsCreateCmd with
  | (.ok _, ev1, n1) => step2 n1 ev1
  | (.error _, ev1, n1) =>
    step2 n1 (ev1 ++
      [.echo ("ℹ️  Namespace \x27" ++ NAMESPACE ++ "\x27 already exists; continuing.")])

/-- The address query command (line 75). -/
def ipCmd : String := "minikube ip"

/-- The probe URL construction (line 79). -/
def probeUrl (ip : String) : String :=
  "http://" ++ ip ++ ":" ++ toString NODE_PORT ++ "/health"

/-- The health probe command for a URL (line 83). -/
def curlCmd (url : String) : String := "curl -sf " ++ url

/-- The retry loop of `healthcheck_minikube` (lines 80-87), with `left`
attempts remaining out of `total`: probe the URL; on success log and
return; on a `CalledProcessError` sleep 2 seconds and continue; after
the last attempt exit with a fatal message (line 89). -/
def healthLoop (w : World) (url : String) (total : Nat) :
    Nat → Nat → Run Unit
  | n, 0 => (.error (.exitMsg ("❌ Minikube health check failed after " ++
      toString total ++ " attempts.")), [], n)
  | n, left + 1 =>
    let att := .echo ("⏳ Health check attempt " ++
      toString (total - left) ++ "/" ++ toString total ++ ": GET " ++ url)
    match run w n (curlCmd url) with
    | (.ok _, ev, n1) => (.ok (), att :: (ev ++ [.echo "✅ Health check passed!"]), n1)
    | (.error _, ev, n1) =>
      match healthLoop w url total n1 left with
      | (r, ev2, n2) => (r, att :: (ev ++ .sleep 2 :: ev2), n2)

/-- Python's `str.strip()`: remove leading and trailing whitespace. -/
def pyStrip (s : String) : String :=
  ⟨((s.data.dropWhile Char.isWhitespace).reverse.dropWhile
      Char.isWhitespace).reverse⟩

/-- `healthcheck_minikube` (lines 69-89): obtain the cluster address via
`check_output("minikube ip")`, exiting fatally when that fails; strip
it, build the URL, and run the 5-attempt probe loop. -/
def healthcheck_minikube (w : World) (n : Nat) : Run Unit :=
  match w.exec n ipCmd with
  | .err _ => (.error (.exitMsg "❌ Failed to get Minikube IP."), [.cmd ipCmd], n + 1)
  | .ok out =>
    let url := probeUrl (pyStrip out)
    match healthLoop w url 5 (n + 1) 5 with
    | (r, ev, n2) => (r, .cmd ipCmd :: ev, n2)

/-- The emitted workflow text (lines 102-133) as a function of the three
configuration values interpolated by the f-string. -/
def workflow_text (ns : String) (port : Nat) (image : String) : String :=
  "name: CI – atlas-app\n" ++
  "on:\n" ++
  "  push:\n" ++
  "    branches: [ main ]\n" ++
  "\n" ++
  "jobs:\n" ++
  "  minikube-ci:\n" ++
  "    runs-on: ubuntu-latest\n" ++
  "    steps:\n" ++
  "      - uses: actions/checkout@v4\n" ++
  "\n" ++
  "      - name: Start Minikube\n" ++
  "        uses: medyagh/setup-minikube@latest\n" ++
  "\n" ++
  "      - name: Build Docker image\n" ++
  "        run: docker build -t " ++ image ++ " .\n" ++
  "\n" ++
  "      - name: Load image into Minikube\n" ++
  "        run: minikube image load " ++ image ++ "\n" ++
  "\n" ++
  "      - name: Deploy to Minikube\n" ++
  "        run: |\n" ++
  "          kubectl create namespace " ++ ns ++ " || true\n" ++
  "          kubectl apply -n " ++ ns ++ " -f k8s/atlas-deployment.yaml\n" ++
  "          kubectl apply -n " ++ ns ++ " -f k8s/atlas-service-nodeport.yaml\n" ++
  "\n" ++
  "      - name: Smoke-test the service\n" ++
  "        run: |\n" ++
  "          IP=$(minikube ip)\n" ++
  "          curl --retry 5 http://$IP:" ++ toString port ++ "/health\n"

/-- The workflow text actually written, at the module's configuration. -/
def workflow_content : String :=
  workflow_text NAMESPACE NODE_PORT IMAGE_LOCAL

/-- `generate_github_actions` (lines 92-136): create directories and
write `workflow_content` to `GITHUB_WORKFLOW`; an OS error escapes to
the caller, success logs a confirmation. -/
def generate_github_actions (w : World) (n : Nat) : Run Unit :=
  if w.writeOk then
    (.ok (), [.write GITHUB_WORKFLOW workflow_content,
      .echo ("✔ Generated GitHub Actions workflow: " ++ GITHUB_WORKFLOW)], n)
  else
    (.error (.ioErr GITHUB_WORKFLOW), [], n)

/-- The cluster deletion command (line 141). -/
def deleteCmd : String := "minikube delete"

/-- `cleanup_minikube` (lines 139-141): delete the Minikube cluster.
Defined in the source but never invoked by the main flow (the call at
line 156 is commented out). -/
def cleanup_minikube (w : World) (n : Nat) : Run Unit :=
  run w n deleteCmd

/-- The diagnostic main prints for an escaped exception: `SystemExit`
messages are printed by the interpreter as written; any other exception
is caught by `except Exception` and reported (lines 152-153). -/
def failEcho : PipeError → Event
  | .exitMsg m => .echo m
  | .cpe c => .echo ("\n❗️ Pipeline failed: Command \x27" ++ c ++
      "\x27 returned non-zero exit status.")
  | .ioErr p => .echo ("\n❗️ Pipeline failed: cannot write \x27" ++ p ++ "\x27.")

/-- The main flow (lines 144-156): the four steps in order, each gating
the next; any escaped exception ends the process with exit code 1 and a
terminal diagnostic, full success prints the closing messages and ends
with exit code 0.  Returns (exit code, event trace). -/
def mainPipeline (w : World) : Nat × List Event :=
  match setup_minikube w 0 with
  | (.error e, ev1, _) => (1, ev1 ++ [failEcho e])
  | (.ok _, ev1, n1) =>
    match deploy_minikube w n1 with
    | (.error e, ev2, _) => (1, ev1 ++ ev2 ++ [failEcho e])
    | (.ok _, ev2, n2) =>
      match healthcheck_minikube w n2 with
      | (.error e, ev3, _) => (1, ev1 ++ ev2 ++ ev3 ++ [failEcho e])
      | (.ok _, ev3, n3) =>
        match generate_github_actions w n3 with
        | (.error e, ev4, _) => (1, ev1 ++ ev2 ++ ev3 ++ ev4 ++ [failEcho e])
        | (.ok _, ev4, _) =>
          (0, ev1 ++ ev2 ++ ev3 ++ ev4 ++
            [.echo "\n🎉 All steps completed successfully!",
             .echo "→ Commit & push .github/workflows/ci-atlas.yaml to trigger CI."])

/-! ### Trace observations -/

/-- Number of times command `c` is executed in a trace. -/
def countCmd (c : String) : List Event → Nat
  | [] => 0
  | .cmd c' :: es => (if c' = c then 1 else 0) + countCmd c es
  | _ :: es => countCmd c es

/-- The executed commands of a trace, in order. -/
def cmdsOf : List Event → List String
  | [] => []
  | .cmd c :: es => c :: cmdsOf es
  | _ :: es => cmdsOf es

/-- The sleep durations of a trace, in order. -/
def sleepsOf : List Event → List Nat
  | [] => []
  | .sleep s :: es => s :: sleepsOf es
  | _ :: es => sleepsOf es

/-- Whether an `Except` result is a success. -/
def resOk : Except PipeError Unit → Bool
  | .ok _ => true
  | .error _ => false

/-- Whether a command outcome is a zero exit. -/
def cmdOk : CmdOutcome → Bool
  | .ok _ => true
  | .err _ => false

/-! ### Text extraction, for round-tripping the emitted workflow -/

/-- The suffix of `s` after the first occurrence of `m`, if any. -/
def dropThrough (m : List Char) : List Char → Option (List Char)
  | [] => if m = [] then some [] else none
  | c :: cs =>
    if m.isPrefixOf (c :: cs) then some ((c :: cs).drop m.length)
    else dropThrough m cs

/-- The prefix of `s` before the first occurrence of `m` (all of `s`
when `m` does not occur). -/
def takeUntil (m : List Char) : List Char → List Char
  | [] => []
  | c :: cs => if m.isPrefixOf (c :: cs) then [] else c :: takeUntil m cs

/-- The text strictly between the first occurrence of `pre` and the
next occurrence of `post` after it. -/
def extractBetween (pre post s : String) : Option String :=
  (dropThrough pre.data s.data).map (fun suf => ⟨takeUntil post.data suf⟩)

/-- Recover the namespace literal from emitted workflow text. -/
def extractNamespace (s : String) : Option String :=
  extractBetween "kubectl create namespace " " || true" s

/-- Recover the node-port literal from emitted workflow text. -/
def extractPort (s : String) : Option String :=
  extractBetween "http://$IP:" "/health" s

/-- Recover the image-reference literal from emitted workflow text. -/
def extractImage (s : String) : Option String :=
  extractBetween "docker build -t " " ." s

/-! ### Concrete worlds used as counterexamples and witnesses -/

/-- A world where the address query succeeds and every probe fails. -/
def wAllFail : World :=
  ⟨fun _ c => if c = ipCmd then .ok "192.168.49.2\n" else .err "connection refused",
   true⟩

/-- A world where the address query (call 0) succeeds, the probes at
calls 1-4 fail, and the probe at call 5 succeeds. -/
def wFourThenOk : World :=
  ⟨fun i c => if c = ipCmd then .ok "1.2.3.4"
    else if i < 5 then .err "refused" else .ok "",
   true⟩

/-- A world where every external command fails. -/
def wNoIp : World := ⟨fun _ _ => .err "unreachable", true⟩

/-- A world where every external command succeeds with empty output. -/
def wAllOk : World := ⟨fun _ _ => .ok "", true⟩

/-- A world where the status query exits zero reporting state
`Stopped`, and every other command succeeds with empty output. -/
def wStopped : World :=
  ⟨fun _ c => if c = statusCmd then .ok "Stopped" else .ok "", true⟩

/-- A world where the first external call succeeds and every later call
fails. -/
def wSecondFails : World :=
  ⟨fun i _ => if i = 0 then .ok "" else .err "apply failed", true⟩

/-- A world where the namespace creation fails with a reason other than
"already exists", and everything else succeeds. -/
def wNsForbidden : World :=
  ⟨fun _ c => if c = nsCreateCmd then
      .err "namespaces is forbidden: User cannot create resource"
    else .ok "", true⟩

/-! ### Basic lemmas about trace observations -/

@[simp] theorem cmdsOf_nil : cmdsOf [] = [] := rfl

@[simp] theorem cmdsOf_cons_cmd (c : String) (es : List Event) :
    cmdsOf (.cmd c :: es) = c :: cmdsOf es := rfl

@[simp] theorem cmdsOf_cons_echo (m : String) (es : List Event) :
    cmdsOf (.echo m :: es) = cmdsOf es := rfl

@[simp] theorem cmdsOf_cons_sleep (s : Nat) (es : List Event) :
    cmdsOf (.sleep s :: es) = cmdsOf es := rfl

@[simp] theorem cmdsOf_cons_write (p c : String) (es : List Event) :
    cmdsOf (.write p c :: es) = cmdsOf es := rfl

@[simp] theorem cmdsOf_append (a b : List Event) :
    cmdsOf (a ++ b) = cmdsOf a ++ cmdsOf b := by
  induction a with
  | nil => rfl
  | cons e es ih => cases e <;> simp [ih]

@[simp] theorem sleepsOf_nil : sleepsOf [] = [] := rfl

@[simp] theorem sleepsOf_cons_cmd (c : String) (es : List Event) :
    sleepsOf (.cmd c :: es) = sleepsOf es := rfl

@[simp] theorem sleepsOf_cons_echo (m : String) (es : List Event) :
    sleepsOf (.echo m :: es) = sleepsOf es := rfl

@[simp] theorem sleepsOf_cons_sleep (s : Nat) (es : List Event) :
    sleepsOf (.sleep s :: es) = s :: sleepsOf es := rfl

@[simp] theorem sleepsOf_cons_write (p c : String) (es : List Event) :
    sleepsOf (.write p c :: es) = sleepsOf es := rfl

@[simp] theorem sleepsOf_append (a b : List Event) :
    sleepsOf (a ++ b) = sleepsOf a ++ sleepsOf b := by
  induction a with
  | nil => rfl
  | cons e es ih => cases e <;> simp [ih]

@[simp] theorem countCmd_nil (c : String) : countCmd c [] = 0 := rfl

@[simp] theorem countCmd_cons_cmd (c c' : String) (es : List Event) :
    countCmd c (.cmd c' :: es) = (if c' = c then 1 else 0) + countCmd c es := rfl

@[simp] theorem countCmd_cons_echo (c m : String) (es : List Event) :
    countCmd c (.echo m :: es) = countCmd c es := rfl

@[simp] theorem countCmd_cons_sleep (c : String) (s : Nat) (es : List Event) :
    countCmd c (.sleep s :: es) = countCmd c es := rfl

@[simp] theorem countCmd_cons_write (c p q : String) (es : List Event) :
    countCmd c (.write p q :: es) = countCmd c es := rfl

@[simp] theorem countCmd_append (c : String) (a b : List Event) :
    countCmd c (a ++ b) = countCmd c a + countCmd c b := by
  induction a with
  | nil => simp
  | cons e es ih => cases e <;> (simp [ih]; try omega)

/-! ### Characterization of the health-check retry loop -/

/-- When every remaining probe fails, the loop consumes all attempts:
one probe command and one 2-second sleep per attempt, ending in the
fatal exhaustion exit. -/
theorem healthLoop_all_fail (w : World) (url : String) (total : Nat) :
    ∀ left n, (∀ i, i < left → cmdOk (w.exec (n + i) (curlCmd url)) = false) →
      (healthLoop w url total n left).1 =
        .error (.exitMsg ("❌ Minikube health check failed after " ++
          toString total ++ " attempts.")) ∧
      cmdsOf (healthLoop w url total n left).2.1 =
        List.replicate left (curlCmd url) ∧
      sleepsOf (healthLoop w url total n left).2.1 = List.replicate left 2 := by
  intro left
  induction left with
  | zero => intro n _; simp [healthLoop]
  | succ k ih =>
    intro n h
    have h0 := h 0 (Nat.succ_pos k)
    rcases he : w.exec (n + 0) (curlCmd url) with s | r
    · rw [he] at h0; simp [cmdOk] at h0
    · have hk := ih (n + 1) (fun i hi => by
        have h2 := h (i + 1) (Nat.succ_lt_succ hi)
        have e : n + 1 + i = n + (i + 1) := by omega
        rw [e]; exact h2)
      rcases hl : healthLoop w url total (n + 1) k with ⟨r2, ev2, n2⟩
      rw [hl] at hk
      simp only [Nat.add_zero] at he
      simp [healthLoop, run, he, hl, List.replicate_succ]
      exact hk

/-- When the first `j` probes fail and the probe after them succeeds,
the loop returns success immediately after the (j+1)-th probe: j+1
probe commands and j sleeps, all of 2 seconds. -/
theorem healthLoop_early_exit (w : World) (url : String) (total : Nat) :
    ∀ j left n, j < left →
      (∀ i, i < j → cmdOk (w.exec (n + i) (curlCmd url)) = false) →
      cmdOk (w.exec (n + j) (curlCmd url)) = true →
      (healthLoop w url total n left).1 = .ok () ∧
      cmdsOf (healthLoop w url total n left).2.1 =
        List.replicate (j + 1) (curlCmd url) ∧
      sleepsOf (healthLoop w url total n left).2.1 = List.replicate j 2 := by
  intro j
  induction j with
  | zero =>
    intro left n hlt _ hok
    rcases left with _ | k
    · omega
    · rcases he : w.exec (n + 0) (curlCmd url) with s | r
      · simp only [Nat.add_zero] at he
        simp [healthLoop, run, he]
      · rw [he] at hok; simp [cmdOk] at hok
  | succ j ih =>
    intro left n hlt hfail hok
    rcases left with _ | k
    · omega
    · have h0 := hfail 0 (Nat.succ_pos j)
      rcases he : w.exec (n + 0) (curlCmd url) with s | r
      · rw [he] at h0; simp [cmdOk] at h0
      · have hk := ih k (n + 1) (by omega)
          (fun i hi => by
            have h2 := hfail (i + 1) (Nat.succ_lt_succ hi)
            have e : n + 1 + i = n + (i + 1) := by omega
            rw [e]; exact h2)
          (by
            have e : n + 1 + j = n + (j + 1) := by omega
            rw [e]; exact hok)
        rcases hl : healthLoop w url total (n + 1) k with ⟨r2, ev2, n2⟩
        rw [hl] at hk
        simp only [Nat.add_zero] at he
        simp [healthLoop, run, he, hl, List.replicate_succ]
        exact hk

/-! ### Command inventories of the pipeline steps -/

/-- The diagnostic event printed by main never contains a command. -/
@[simp] theorem countCmd_failEcho (c : String) (e : PipeError) :
    countCmd c [failEcho e] = 0 := by
  cases e <;> rfl

/-- The diagnostic event printed by main is a log line, not a command. -/
@[simp] theorem cmdsOf_failEcho (e : PipeError) : cmdsOf [failEcho e] = [] := by
  cases e <;> rfl

/-- A probe command is never the cluster-delete command: it starts with
`curl`, not `minikube`. -/
theorem curl_ne_delete (url : String) : curlCmd url ≠ deleteCmd := by
  rcases url with ⟨data⟩
  intro h
  have h1 : (curlCmd ⟨data⟩).data.head? = some 'c' := rfl
  rw [h] at h1
  exact absurd h1 (by decide)

/-- The retry loop executes only the probe command: its command trace is
some number of repetitions of `curlCmd url`. -/
theorem healthLoop_cmds_replicate (w : World) (url : String) (total : Nat) :
    ∀ left n, ∃ m, cmdsOf (healthLoop w url total n left).2.1 =
      List.replicate m (curlCmd url) := by
  intro left
  induction left with
  | zero => intro n; exact ⟨0, by simp [healthLoop]⟩
  | succ k ih =>
    intro n
    rcases he : w.exec n (curlCmd url) with s | r
    · exact ⟨1, by simp [healthLoop, run, he]⟩
    · obtain ⟨m, hm⟩ := ih (n + 1)
      rcases hl : healthLoop w url total (n + 1) k with ⟨r2, ev2, n2⟩
      rw [hl] at hm
      exact ⟨m + 1, by simp [healthLoop, run, he, hl, List.replicate_succ, hm]⟩

/-- The retry loop never issues the cluster-delete command. -/
theorem healthLoop_delete_free (w : World) (url : String) (total : Nat) :
    ∀ left n, countCmd deleteCmd (healthLoop w url total n left).2.1 = 0 := by
  intro left
  induction left with
  | zero => intro n; simp [healthLoop]
  | succ k ih =>
    intro n
    rcases he : w.exec n (curlCmd url) with s | r
    · simp [healthLoop, run, he, curl_ne_delete url]
    · have hm := ih (n + 1)
      rcases hl : healthLoop w url total (n + 1) k with ⟨r2, ev2, n2⟩
      rw [hl] at hm
      simp [healthLoop, run, he, hl, hm, curl_ne_delete url]

/-- `setup_minikube` never issues the cluster-delete command. -/
theorem setup_delete_free (w : World) (n : Nat) :
    countCmd deleteCmd (setup_minikube w n).2.1 = 0 := by
  rcases h1 : w.exec n statusCmd with s1 | r1
  · rcases h2 : w.exec (n + 1) useContextCmd with s2 | r2
    · rcases h3 : w.exec (n + 2) getNodesCmd with s3 | r3 <;>
        (simp only [setup_minikube, run, h1, h2, h3]; decide)
    · simp only [setup_minikube, run, h1, h2]; decide
  · rcases h2 : w.exec (n + 1) startCmd with s2 | r2
    · rcases h3 : w.exec (n + 2) useContextCmd with s3 | r3
      · rcases h4 : w.exec (n + 3) getNodesCmd with s4 | r4 <;>
          (simp only [setup_minikube, run, h1, h2, h3, h4]; decide)
      · simp only [setup_minikube, run, h1, h2, h3]; decide
    · simp only [setup_minikube, run, h1, h2]; decide

/-- `deploy_minikube` never issues the cluster-delete command. -/
theorem deploy_delete_free (w : World) (n : Nat) :
    countCmd deleteCmd (deploy_minikube w n).2.1 = 0 := by
  rcases h0 : w.exec n nsCreateCmd with s0 | r0 <;>
    rcases h1 : w.exec (n + 1) (applyCmd NAMESPACE deploymentManifest) with s1 | r1
  · rcases h2 : w.exec (n + 2) (applyCmd NAMESPACE serviceManifest) with s2 | r2 <;>
      (simp only [deploy_minikube, run, h0, h1, h2]; decide)
  · simp only [deploy_minikube, run, h0, h1]; decide
  · rcases h2 : w.exec (n + 2) (applyCmd NAMESPACE serviceManifest) with s2 | r2 <;>
      (simp only [deploy_minikube, run, h0, h1, h2]; decide)
  · simp only [deploy_minikube, run, h0, h1]; decide

/-- `healthcheck_minikube` never issues the cluster-delete command. -/
theorem healthcheck_delete_free (w : World) (n : Nat) :
    countCmd deleteCmd (healthcheck_minikube w n).2.1 = 0 := by
  rcases h : w.exec n ipCmd with out | r
  · have hl := healthLoop_delete_free w (probeUrl (pyStrip out)) 5 5 (n + 1)
    rcases hh : healthLoop w (probeUrl (pyStrip out)) 5 (n + 1) 5 with ⟨rr, ev, n2⟩
    rw [hh] at hl
    simp only [healthcheck_minikube, h, hh]
    simp [hl, show ipCmd ≠ deleteCmd from by decide]
  · simp only [healthcheck_minikube, h]; decide

/-- `generate_github_actions` never issues any external command. -/
theorem generate_delete_free (w : World) (n : Nat) :
    countCmd deleteCmd (generate_github_actions w n).2.1 = 0 := by
  rcases hw : w.writeOk <;> simp [generate_github_actions, hw]

/-! ### Claim theorems -/

/-- Claim C1, counterexample: in the world where the address resolves
and all five probes fail, the Health Verifier performs five sleeps —
one after every failed attempt, including the final one — not the four
the claim states. -/
theorem C1_counterexample :
    resOk (healthcheck_minikube wAllFail 0).1 = false ∧
    cmdsOf (healthcheck_minikube wAllFail 0).2.1 =
      ipCmd :: List.replicate 5 (curlCmd (probeUrl "192.168.49.2")) ∧
    sleepsOf (healthcheck_minikube wAllFail 0).2.1 = List.replicate 5 2 ∧
    List.replicate 5 2 ≠ List.replicate 4 (2 : Nat) := by
  refine ⟨by decide, by decide, by decide, by decide⟩

/-- Claim C1 (amended): for the Health Verifier's policy of 5 attempts
with a fixed 2-second delay, once the address resolves: if the first j
probes fail and probe j+1 succeeds (j < 5), the verifier returns
success immediately after exactly j+1 probe calls and j sleeps of 2
seconds (so 4 failures then a success gives 5 probes and 4 sleeps, and
any success exits early); if all 5 probes fail, it exits fatally with
exactly 5 probe calls and exactly 5 sleeps — a sleep is performed after
the final failed attempt as well. -/
theorem C1_health_verifier_retry (w : World) (n : Nat) (out : String)
    (hip : w.exec n ipCmd = .ok out) :
    (∀ j, j < 5 →
      (∀ i, i < j →
        cmdOk (w.exec (n + 1 + i) (curlCmd (probeUrl (pyStrip out)))) = false) →
      cmdOk (w.exec (n + 1 + j) (curlCmd (probeUrl (pyStrip out)))) = true →
      (healthcheck_minikube w n).1 = .ok () ∧
      cmdsOf (healthcheck_minikube w n).2.1 =
        ipCmd :: List.replicate (j + 1) (curlCmd (probeUrl (pyStrip out))) ∧
      sleepsOf (healthcheck_minikube w n).2.1 = List.replicate j 2) ∧
    ((∀ i, i < 5 →
        cmdOk (w.exec (n + 1 + i) (curlCmd (probeUrl (pyStrip out)))) = false) →
      (healthcheck_minikube w n).1 =
        .error (.exitMsg "❌ Minikube health check failed after 5 attempts.") ∧
      cmdsOf (healthcheck_minikube w n).2.1 =
        ipCmd :: List.replicate 5 (curlCmd (probeUrl (pyStrip out))) ∧
      sleepsOf (healthcheck_minikube w n).2.1 = List.replicate 5 2) := by
  constructor
  · intro j hj hfail hok
    have h := healthLoop_early_exit w (probeUrl (pyStrip out)) 5 j 5 (n + 1) hj hfail hok
    rcases hl : healthLoop w (probeUrl (pyStrip out)) 5 (n + 1) 5 with ⟨r, ev, n2⟩
    rw [hl] at h
    simp only [healthcheck_minikube, hip, hl]
    exact ⟨h.1, by simp [h.2.1], by simp [h.2.2]⟩
  · intro hfail
    have h := healthLoop_all_fail w (probeUrl (pyStrip out)) 5 5 (n + 1) hfail
    rcases hl : healthLoop w (probeUrl (pyStrip out)) 5 (n + 1) 5 with ⟨r, ev, n2⟩
    rw [hl] at h
    simp only [healthcheck_minikube, hip, hl]
    have emsg : ("❌ Minikube health check failed after " ++
        toString (5 : Nat) ++ " attempts.") =
        "❌ Minikube health check failed after 5 attempts." := by decide
    rw [emsg] at h
    exact ⟨h.1, by simp [h.2.1], by simp [h.2.2]⟩

/-- Witness for C1: in `wFourThenOk` (four probe failures then a
success), the verifier succeeds with 5 probe calls and 4 sleeps. -/
theorem C1_witness :
    (healthcheck_minikube wFourThenOk 0).1 = .ok () ∧
    cmdsOf (healthcheck_minikube wFourThenOk 0).2.1 =
      ipCmd :: List.replicate 5 (curlCmd (probeUrl (pyStrip "1.2.3.4"))) ∧
    sleepsOf (healthcheck_minikube wFourThenOk 0).2.1 = List.replicate 4 2 :=
  (C1_health_verifier_retry wFourThenOk 0 "1.2.3.4" rfl).1 4 (by decide)
    (by decide) (by decide)

/-- Claim C6: when the address query fails, the Health Verifier aborts
immediately via `sys.exit`: its only external interaction is the
address query itself — zero probe attempts and zero sleeps. -/
theorem C6_address_failure_short_circuit (w : World) (n : Nat) (r : String)
    (hip : w.exec n ipCmd = .err r) :
    (healthcheck_minikube w n).1 = .error (.exitMsg "❌ Failed to get Minikube IP.") ∧
    cmdsOf (healthcheck_minikube w n).2.1 = [ipCmd] ∧
    sleepsOf (healthcheck_minikube w n).2.1 = [] := by
  simp [healthcheck_minikube, hip]

/-- Witness for C6 at the world where every command fails. -/
theorem C6_witness :
    (healthcheck_minikube wNoIp 0).1 = .error (.exitMsg "❌ Failed to get Minikube IP.") ∧
    cmdsOf (healthcheck_minikube wNoIp 0).2.1 = [ipCmd] ∧
    sleepsOf (healthcheck_minikube wNoIp 0).2.1 = [] :=
  C6_address_failure_short_circuit wNoIp 0 "unreachable" rfl

/-- Claim C2, counterexample: the namespace creation in `wNsForbidden`
fails with reason "namespaces is forbidden: ...", which is not "already
exists", yet the pipeline is not aborted: deploy succeeds, both
manifests are still applied, and the informational "already exists" log
line is printed anyway. -/
theorem C2_counterexample :
    wNsForbidden.exec 0 nsCreateCmd =
      .err "namespaces is forbidden: User cannot create resource" ∧
    resOk (deploy_minikube wNsForbidden 0).1 = true ∧
    cmdsOf (deploy_minikube wNsForbidden 0).2.1 =
      [nsCreateCmd, applyCmd NAMESPACE deploymentManifest,
       applyCmd NAMESPACE serviceManifest] ∧
    (Event.echo ("ℹ️  Namespace \x27" ++ NAMESPACE ++ "\x27 already exists; continuing."))
      ∈ (deploy_minikube wNsForbidden 0).2.1 := by
  refine ⟨by decide, by decide, by decide, by decide⟩

/-- Claim C2 (amended): a namespace-creation failure is tolerated and
logged at informational level for every failure reason — the reason
text is never inspected.  After any failed creation the deployer still
proceeds to the Deployment manifest, and the error it can return is
never the namespace-creation error. -/
theorem C2_ns_failure_always_tolerated (w : World) (n : Nat) (reason : String)
    (h : w.exec n nsCreateCmd = .err reason) :
    (Event.echo ("ℹ️  Namespace \x27" ++ NAMESPACE ++ "\x27 already exists; continuing."))
      ∈ (deploy_minikube w n).2.1 ∧
    countCmd (applyCmd NAMESPACE deploymentManifest) (deploy_minikube w n).2.1 = 1 ∧
    ∀ e, (deploy_minikube w n).1 = .error e → e ≠ .cpe nsCreateCmd := by
  rcases h1 : w.exec (n + 1) (applyCmd NAMESPACE deploymentManifest) with s1 | r1
  · rcases h2 : w.exec (n + 2) (applyCmd NAMESPACE serviceManifest) with s2 | r2
    · simp only [deploy_minikube, run, h, h1, h2]
      refine ⟨by decide, by decide, ?_⟩
      intro e he
      simp at he
    · simp only [deploy_minikube, run, h, h1, h2]
      refine ⟨by decide, by decide, ?_⟩
      intro e he
      injection he with h3
      subst h3
      decide
  · simp only [deploy_minikube, run, h, h1]
    refine ⟨by decide, by decide, ?_⟩
    intro e he
    injection he with h3
    subst h3
    decide

/-- Witness for C2 at the world whose namespace creation is forbidden. -/
theorem C2_witness :
    (Event.echo ("ℹ️  Namespace \x27" ++ NAMESPACE ++ "\x27 already exists; continuing."))
      ∈ (deploy_minikube wNsForbidden 0).2.1 ∧
    countCmd (applyCmd NAMESPACE deploymentManifest) (deploy_minikube wNsForbidden 0).2.1 = 1 ∧
    ∀ e, (deploy_minikube wNsForbidden 0).1 = .error e → e ≠ .cpe nsCreateCmd :=
  C2_ns_failure_always_tolerated wNsForbidden 0
    "namespaces is forbidden: User cannot create resource" rfl

/-- Claim C3, counterexample: when the nonzero-exit world runs
`kubectl get nodes` through the Command Executor, `run` does not return
the failure as data — the `CalledProcessError` escapes `run`'s boundary
to the caller (an `Except.error` in the embedding). -/
theorem C3_counterexample :
    (run wNoIp 0 "kubectl get nodes").1 = .error (.cpe "kubectl get nodes") ∧
    resOk (run wNoIp 0 "kubectl get nodes").1 = false := by
  refine ⟨rfl, by decide⟩

/-- Claim C3 (amended): for every command, `run` succeeds exactly when
the command exits zero; on a nonzero exit it logs a diagnostic and
re-raises the `CalledProcessError` to its caller — the failure
propagates as an exception, not as returned data.  The command line is
always logged before execution and the command is executed exactly
once.  `run` accepts no timeout bound, so no timeout-specific failure
kind exists: the only failure it ever propagates is `cpe cmd`. -/
theorem C3_run_reraises (w : World) (n : Nat) (cmd : String) :
    ((run w n cmd).1 = .ok () ↔ cmdOk (w.exec n cmd) = true) ∧
    (cmdOk (w.exec n cmd) = false →
      (run w n cmd).1 = .error (.cpe cmd) ∧
      Event.echo ("❌ Command failed: " ++ cmd) ∈ (run w n cmd).2.1) ∧
    (run w n cmd).2.1.head? = some (.echo ("$ " ++ cmd)) ∧
    cmdsOf (run w n cmd).2.1 = [cmd] := by
  rcases h : w.exec n cmd with s | r <;> simp [run, h, cmdOk]

/-- Witness for C3's amended theorem at a failing command. -/
theorem C3_witness :
    (run wNoIp 0 "kubectl version").1 = .error (.cpe "kubectl version") ∧
    Event.echo ("❌ Command failed: " ++ "kubectl version") ∈ (run wNoIp 0 "kubectl version").2.1 :=
  (C3_run_reraises wNoIp 0 "kubectl version").2.1 (by decide)

/-- `deploy_minikube`'s manifest phase is exactly `applyManifests` on
the two configured manifest paths: the results agree and deploy's
command trace is the namespace creation followed by the manifest
commands. -/
theorem deploy_refines_applyManifests (w : World) (n : Nat) :
    (deploy_minikube w n).1 =
      (applyManifests w (n + 1) NAMESPACE [deploymentManifest, serviceManifest]).1 ∧
    cmdsOf (deploy_minikube w n).2.1 =
      nsCreateCmd ::
        cmdsOf (applyManifests w (n + 1) NAMESPACE [deploymentManifest, serviceManifest]).2.1 := by
  rcases h0 : w.exec n nsCreateCmd with s0 | r0 <;>
    rcases h1 : w.exec (n + 1) (applyCmd NAMESPACE deploymentManifest) with s1 | r1
  · rcases h2 : w.exec (n + 2) (applyCmd NAMESPACE serviceManifest) with s2 | r2 <;>
      simp [deploy_minikube, applyManifests, run, h0, h1, h2]
  · simp [deploy_minikube, applyManifests, run, h0, h1]
  · rcases h2 : w.exec (n + 2) (applyCmd NAMESPACE serviceManifest) with s2 | r2 <;>
      simp [deploy_minikube, applyManifests, run, h0, h1, h2]
  · simp [deploy_minikube, applyManifests, run, h0, h1]

/-- Claim C5: for every manifest list, `applyManifests` applies the
manifests in the given order and stops at the first failure: when the
applies at indices below k succeed and the apply at index k fails,
exactly k+1 apply commands are observed (the first k+1 paths, in
order) and the result is the fatal apply error — no later manifest is
applied.  `deploy_minikube` instantiates this on its two manifests, per
`deploy_refines_applyManifests`. -/
theorem C5_stop_at_first_failure (w : World) (n : Nat) (ns : String)
    (paths : List String) (k : Nat) (hk : k < paths.length)
    (hok : ∀ j, j < k → cmdOk (w.exec (n + j) (applyCmd ns (paths.getD j ""))) = true)
    (hfail : cmdOk (w.exec (n + k) (applyCmd ns (paths.getD k ""))) = false) :
    (applyManifests w n ns paths).1 = .error (.cpe (applyCmd ns (paths.getD k ""))) ∧
    cmdsOf (applyManifests w n ns paths).2.1 = (paths.take (k + 1)).map (applyCmd ns) ∧
    (cmdsOf (applyManifests w n ns paths).2.1).length = k + 1 := by
  induction paths generalizing n k with
  | nil => simp at hk
  | cons p ps ih =>
    rcases k with _ | k
    · rcases he : w.exec (n + 0) (applyCmd ns p) with s | r
      · rw [List.getD_cons_zero, he] at hfail; simp [cmdOk] at hfail
      · simp only [Nat.add_zero] at he
        simp [applyManifests, run, he, List.getD_cons_zero]
    · have h0 := hok 0 (Nat.succ_pos k)
      rcases he : w.exec (n + 0) (applyCmd ns p) with s | r
      · have hrec := ih (n + 1) k (by simpa using hk)
          (fun j hj => by
            have h2 := hok (j + 1) (Nat.succ_lt_succ hj)
            rw [List.getD_cons_succ] at h2
            have e : n + 1 + j = n + (j + 1) := by omega
            rw [e]; exact h2)
          (by
            rw [List.getD_cons_succ] at hfail
            have e : n + 1 + k = n + (k + 1) := by omega
            rw [e]; exact hfail)
        rcases hl : applyManifests w (n + 1) ns ps with ⟨r2, ev2, n2⟩
        rw [hl] at hrec
        simp only [Nat.add_zero] at he
        simp only [applyManifests, run, he, hl, List.getD_cons_succ, List.take_succ_cons,
          List.map_cons]
        refine ⟨hrec.1, ?_, ?_⟩
        · simp [hrec.2.1]
        · simp only [List.length_cons] at hk
          simp [hrec.2.1]
          omega
      · rw [List.getD_cons_zero, he] at h0; simp [cmdOk] at h0

/-- Claim C4, counterexample: in `wStopped` the status query exits zero
while reporting state `Stopped` — not "running" — yet `setup_minikube`
issues no start command (the reported state text is never inspected,
only the exit status), and the node-list step succeeds with an empty
listing (emptiness is never checked). -/
theorem C4_counterexample :
    wStopped.exec 0 statusCmd = .ok "Stopped" ∧
    "Stopped" ≠ "running" ∧ "Stopped" ≠ "Running" ∧
    countCmd startCmd (setup_minikube wStopped 0).2.1 = 0 ∧
    wStopped.exec 2 getNodesCmd = .ok "" ∧
    (setup_minikube wStopped 0).1 = .ok () ∧
    cmdsOf (setup_minikube wStopped 0).2.1 = [statusCmd, useContextCmd, getNodesCmd] := by
  refine ⟨by decide, by decide, by decide, by decide, by decide, rfl, by decide⟩

/-- Claim C4 (amended): `setup_minikube` issues a start command if and
only if the status query command fails (exits nonzero) — the reported
state text is never inspected — and at most one start call is made.
When the step succeeds, its command trace is the status query,
optionally the single start, then exactly one context-switch followed
by exactly one node-list; the success criterion is that the
context-switch and the node-list commands exit zero (the listing's
content is not examined). -/
theorem C4_conditional_start (w : World) (n : Nat) :
    countCmd startCmd (setup_minikube w n).2.1 =
      (if cmdOk (w.exec n statusCmd) = true then 0 else 1) ∧
    ((setup_minikube w n).1 = .ok () →
      cmdsOf (setup_minikube w n).2.1 = [statusCmd, useContextCmd, getNodesCmd] ∨
      cmdsOf (setup_minikube w n).2.1 = [statusCmd, startCmd, useContextCmd, getNodesCmd]) ∧
    ((setup_minikube w n).1 = .ok () ↔
      ((cmdOk (w.exec n statusCmd) = true ∧
        cmdOk (w.exec (n + 1) useContextCmd) = true ∧
        cmdOk (w.exec (n + 2) getNodesCmd) = true) ∨
       (cmdOk (w.exec n statusCmd) = false ∧
        cmdOk (w.exec (n + 1) startCmd) = true ∧
        cmdOk (w.exec (n + 2) useContextCmd) = true ∧
        cmdOk (w.exec (n + 3) getNodesCmd) = true))) := by
  rcases h1 : w.exec n statusCmd with s1 | r1
  · rcases h2 : w.exec (n + 1) useContextCmd with s2 | r2
    · rcases h3 : w.exec (n + 2) getNodesCmd with s3 | r3
      · simp only [setup_minikube, run, h1, h2, h3]
        refine ⟨by simp [cmdOk]; try decide, fun _ => Or.inl (by decide), ?_⟩
        simp [cmdOk]
      · simp only [setup_minikube, run, h1, h2, h3]
        refine ⟨by simp [cmdOk]; try decide, ?_, ?_⟩
        · intro hc; exact absurd hc (by simp)
        · simp [cmdOk]
    · simp only [setup_minikube, run, h1, h2]
      refine ⟨by simp [cmdOk]; try decide, ?_, ?_⟩
      · intro hc; exact absurd hc (by simp)
      · simp [cmdOk]
  · rcases h2 : w.exec (n + 1) startCmd with s2 | r2
    · rcases h3 : w.exec (n + 2) useContextCmd with s3 | r3
      · rcases h4 : w.exec (n + 3) getNodesCmd with s4 | r4
        · simp only [setup_minikube, run, h1, h2, h3, h4]
          refine ⟨by simp [cmdOk]; try decide, fun _ => Or.inr (by decide), ?_⟩
          simp [cmdOk]
        · simp only [setup_minikube, run, h1, h2, h3, h4]
          refine ⟨by simp [cmdOk]; try decide, ?_, ?_⟩
          · intro hc; exact absurd hc (by simp)
          · simp [cmdOk]
      · simp only [setup_minikube, run, h1, h2, h3]
        refine ⟨by simp [cmdOk]; try decide, ?_, ?_⟩
        · intro hc; exact absurd hc (by simp)
        · simp [cmdOk]
    · simp only [setup_minikube, run, h1, h2]
      refine ⟨by simp [cmdOk]; try decide, ?_, ?_⟩
      · intro hc; exact absurd hc (by simp)
      · simp [cmdOk]

/-- Witness for C4: in the all-succeeding world the cluster is already
running, so no start is issued and the trace is status, context-switch,
node-list. -/
theorem C4_witness :
    countCmd startCmd (setup_minikube wAllOk 0).2.1 = 0 ∧
    (cmdsOf (setup_minikube wAllOk 0).2.1 = [statusCmd, useContextCmd, getNodesCmd] ∨
     cmdsOf (setup_minikube wAllOk 0).2.1 = [statusCmd, startCmd, useContextCmd, getNodesCmd]) := by
  have h := C4_conditional_start wAllOk 0
  exact ⟨by rw [h.1]; decide, h.2.1 (h.2.2.mpr (Or.inl (by decide)))⟩

/-- Witness for C5: three manifests, second apply fails — exactly two
apply commands observed, in order, and a fatal result. -/
theorem C5_witness :
    (applyManifests wSecondFails 0 "ns" ["a.yaml", "b.yaml", "c.yaml"]).1 =
      .error (.cpe (applyCmd "ns" "b.yaml")) ∧
    cmdsOf (applyManifests wSecondFails 0 "ns" ["a.yaml", "b.yaml", "c.yaml"]).2.1 =
      [applyCmd "ns" "a.yaml", applyCmd "ns" "b.yaml"] ∧
    (cmdsOf (applyManifests wSecondFails 0 "ns" ["a.yaml", "b.yaml", "c.yaml"]).2.1).length = 2 := by
  have h := C5_stop_at_first_failure wSecondFails 0 "ns" ["a.yaml", "b.yaml", "c.yaml"] 1
    (by decide) (by decide) (by decide)
  exact ⟨h.1, by rw [h.2.1]; decide, h.2.2⟩

/-- Claim C7: the Workflow Emitter is deterministic — whenever the
write succeeds, the file written is `GITHUB_WORKFLOW` with content
`workflow_content`, independent of the world and of the call position,
so two runs with identical configuration emit byte-identical text — and
the emitted text embeds the configured namespace, port, and image
reference verbatim: parsing the three literals back out of the text
recovers exactly the configuration values. -/
theorem C7_workflow_deterministic_roundtrip :
    (∀ w n w2 n2, World.writeOk w = true → World.writeOk w2 = true →
      (generate_github_actions w n).2.1 = (generate_github_actions w2 n2).2.1 ∧
      Event.write GITHUB_WORKFLOW workflow_content ∈ (generate_github_actions w n).2.1) ∧
    extractNamespace workflow_content = some NAMESPACE ∧
    extractPort workflow_content = some (toString NODE_PORT) ∧
    extractImage workflow_content = some IMAGE_LOCAL := by
  refine ⟨?_, ?dns, ?dport, ?dimg⟩
  case dns => set_option maxRecDepth 10000 in decide
  case dport => set_option maxRecDepth 10000 in decide
  case dimg => set_option maxRecDepth 10000 in decide
  intro w n w2 n2 h1 h2
  simp [generate_github_actions, h1, h2]

/-- Witness for C7: two different worlds at different call positions
write the same bytes, namely `workflow_content` at `GITHUB_WORKFLOW`. -/
theorem C7_witness :
    (generate_github_actions wAllOk 0).2.1 = (generate_github_actions wAllFail 3).2.1 ∧
    Event.write GITHUB_WORKFLOW workflow_content ∈ (generate_github_actions wAllOk 0).2.1 :=
  C7_workflow_deterministic_roundtrip.1 wAllOk 0 wAllFail 3 rfl rfl

/-- Claim C8: the process exit code is 0 iff all four steps succeed
(cluster setup, deploy, health check, and the workflow write); it is
always 0 or 1; a failed step prevents every later external command (the
trace stops at the failing step); and a nonzero exit ends with a
terminal diagnostic log line. -/
theorem C8_exit_code (w : World) :
    ((mainPipeline w).1 = 0 ∨ (mainPipeline w).1 = 1) ∧
    ((mainPipeline w).1 = 0 ↔
      (resOk (setup_minikube w 0).1 = true ∧
       resOk (deploy_minikube w (setup_minikube w 0).2.2).1 = true ∧
       resOk (healthcheck_minikube w
         (deploy_minikube w (setup_minikube w 0).2.2).2.2).1 = true ∧
       World.writeOk w = true)) ∧
    (resOk (setup_minikube w 0).1 = false →
      cmdsOf (mainPipeline w).2 = cmdsOf (setup_minikube w 0).2.1) ∧
    (resOk (setup_minikube w 0).1 = true →
      resOk (deploy_minikube w (setup_minikube w 0).2.2).1 = false →
      cmdsOf (mainPipeline w).2 =
        cmdsOf (setup_minikube w 0).2.1 ++
        cmdsOf (deploy_minikube w (setup_minikube w 0).2.2).2.1) ∧
    (resOk (setup_minikube w 0).1 = true →
      resOk (deploy_minikube w (setup_minikube w 0).2.2).1 = true →
      resOk (healthcheck_minikube w
        (deploy_minikube w (setup_minikube w 0).2.2).2.2).1 = false →
      cmdsOf (mainPipeline w).2 =
        cmdsOf (setup_minikube w 0).2.1 ++
        cmdsOf (deploy_minikube w (setup_minikube w 0).2.2).2.1 ++
        cmdsOf (healthcheck_minikube w
          (deploy_minikube w (setup_minikube w 0).2.2).2.2).2.1) ∧
    ((mainPipeline w).1 = 1 →
      ∃ m, ((mainPipeline w).2).getLast? = some (.echo m)) := by
  rcases hs : setup_minikube w 0 with ⟨rs, evs, ns0⟩
  cases rs with
  | error e =>
    simp only [mainPipeline, hs]
    refine ⟨by simp, by simp [resOk], fun _ => by simp, ?_, ?_, ?_⟩
    · intro hok; simp [resOk] at hok
    · intro hok; simp [resOk] at hok
    · intro _; cases e <;> simp [failEcho, List.getLast?_concat]
  | ok u =>
    rcases hd : deploy_minikube w ns0 with ⟨rd, evd, nd⟩
    cases rd with
    | error e =>
      simp only [mainPipeline, hs, hd]
      refine ⟨by simp, by simp [resOk], ?_, fun _ _ => by simp, ?_, ?_⟩
      · intro hbad; simp [resOk] at hbad
      · intro _ hbad; simp [resOk] at hbad
      · intro _; cases e <;> simp [failEcho, List.getLast?_concat]
    | ok u2 =>
      rcases hh : healthcheck_minikube w nd with ⟨rh, evh, nh⟩
      cases rh with
      | error e =>
        simp only [mainPipeline, hs, hd, hh]
        refine ⟨by simp, by simp [resOk], ?_, ?_, fun _ _ _ => by simp, ?_⟩
        · intro hbad; simp [resOk] at hbad
        · intro _ hbad; simp [resOk] at hbad
        · intro _; cases e <;> simp [failEcho, List.getLast?_concat]
      | ok u3 =>
        cases hw : World.writeOk w with
        | false =>
          simp only [mainPipeline, hs, hd, hh, generate_github_actions, hw]
          refine ⟨by simp, by simp [resOk, hw], ?_, ?_, ?_, ?_⟩
          · intro hbad; simp [resOk] at hbad
          · intro _ hbad; simp [resOk] at hbad
          · intro _ _ hbad; simp [resOk] at hbad
          · intro _; simp [failEcho, List.getLast?_concat]
        | true =>
          simp only [mainPipeline, hs, hd, hh, generate_github_actions, hw]
          refine ⟨by simp, by simp [resOk, hw], ?_, ?_, ?_, by simp⟩
          · intro hbad; simp [resOk] at hbad
          · intro _ hbad; simp [resOk] at hbad
          · intro _ _ hbad; simp [resOk] at hbad

/-- Witness for C8: in the all-succeeding world the pipeline exits 0. -/
theorem C8_witness : (mainPipeline wAllOk).1 = 0 :=
  (C8_exit_code wAllOk).2.1.mpr ⟨by decide, by decide, by decide, rfl⟩

/-- Claim C9: the configuration values are fixed at start and read
unchanged by every step: the deployer only ever issues the three
commands built from `NAMESPACE`, the Health Verifier only probes the
address query and the URL built from `NODE_PORT`, the emitter only ever
writes `GITHUB_WORKFLOW` with the fixed `workflow_content`, and that
content embeds exactly the same `NAMESPACE`, `NODE_PORT` and
`IMAGE_LOCAL` the other steps used. -/
theorem C9_config_constant_across_steps :
    (∀ w n, ∀ c ∈ cmdsOf (deploy_minikube w n).2.1,
      c = nsCreateCmd ∨ c = applyCmd NAMESPACE deploymentManifest ∨
      c = applyCmd NAMESPACE serviceManifest) ∧
    (∀ w n out, w.exec n ipCmd = .ok out →
      ∀ c ∈ cmdsOf (healthcheck_minikube w n).2.1,
        c = ipCmd ∨ c = curlCmd (probeUrl (pyStrip out))) ∧
    (∀ w n p c, Event.write p c ∈ (generate_github_actions w n).2.1 →
      p = GITHUB_WORKFLOW ∧ c = workflow_content) ∧
    extractNamespace workflow_content = some NAMESPACE ∧
    extractPort workflow_content = some (toString NODE_PORT) ∧
    extractImage workflow_content = some IMAGE_LOCAL := by
  refine ⟨?_, ?_, ?_, ?ens, ?eport, ?eimg⟩
  case ens => set_option maxRecDepth 10000 in decide
  case eport => set_option maxRecDepth 10000 in decide
  case eimg => set_option maxRecDepth 10000 in decide
  · intro w n
    rcases h0 : w.exec n nsCreateCmd with s0 | r0 <;>
      rcases h1 : w.exec (n + 1) (applyCmd NAMESPACE deploymentManifest) with s1 | r1
    · rcases h2 : w.exec (n + 2) (applyCmd NAMESPACE serviceManifest) with s2 | r2 <;>
        (simp only [deploy_minikube, run, h0, h1, h2]; decide)
    · simp only [deploy_minikube, run, h0, h1]; decide
    · rcases h2 : w.exec (n + 2) (applyCmd NAMESPACE serviceManifest) with s2 | r2 <;>
        (simp only [deploy_minikube, run, h0, h1, h2]; decide)
    · simp only [deploy_minikube, run, h0, h1]; decide
  · intro w n out hip c hc
    obtain ⟨m, hm⟩ := healthLoop_cmds_replicate w (probeUrl (pyStrip out)) 5 5 (n + 1)
    rcases hh : healthLoop w (probeUrl (pyStrip out)) 5 (n + 1) 5 with ⟨rr, ev, n2⟩
    rw [hh] at hm
    simp only [healthcheck_minikube, hip, hh, cmdsOf_cons_cmd, hm] at hc
    rcases List.mem_cons.mp hc with h | h
    · exact Or.inl h
    · exact Or.inr (List.eq_of_mem_replicate h)
  · intro w n p c hmem
    cases hw : World.writeOk w with
    | false => simp [generate_github_actions, hw] at hmem
    | true =>
      simp [generate_github_actions, hw] at hmem
      exact ⟨hmem.1, hmem.2⟩

set_option maxRecDepth 10000 in
/-- Witness for C9: concrete instantiations of the health-probe and
workflow-write conjuncts. -/
theorem C9_witness :
    (curlCmd (probeUrl (pyStrip "")) = ipCmd ∨
     curlCmd (probeUrl (pyStrip "")) = curlCmd (probeUrl (pyStrip ""))) ∧
    (GITHUB_WORKFLOW = GITHUB_WORKFLOW ∧ workflow_content = workflow_content) :=
  ⟨C9_config_constant_across_steps.2.1 wAllOk 0 "" rfl
      (curlCmd (probeUrl (pyStrip ""))) (by decide),
   C9_config_constant_across_steps.2.2.1 wAllOk 0 GITHUB_WORKFLOW workflow_content
      (by decide)⟩

/-- Claim C10: no pipeline run ever issues the cluster-delete command —
in every world, over every path of the main flow (success or any
abort), `minikube delete` is executed zero times; it is exactly the
command that the never-invoked `cleanup_minikube` would issue. -/
theorem C10_no_cluster_delete (w : World) :
    countCmd deleteCmd (mainPipeline w).2 = 0 ∧
    countCmd deleteCmd (cleanup_minikube w 0).2.1 = 1 := by
  constructor
  · have h1 := setup_delete_free w 0
    rcases hs : setup_minikube w 0 with ⟨rs, evs, ns0⟩
    rw [hs] at h1
    cases rs with
    | error e => simp [mainPipeline, hs, h1]
    | ok _ =>
      have h2 := deploy_delete_free w ns0
      rcases hd : deploy_minikube w ns0 with ⟨rd, evd, nd⟩
      rw [hd] at h2
      cases rd with
      | error e => simp [mainPipeline, hs, hd, h1, h2]
      | ok _ =>
        have h3 := healthcheck_delete_free w nd
        rcases hh : healthcheck_minikube w nd with ⟨rh, evh, nh⟩
        rw [hh] at h3
        cases rh with
        | error e => simp [mainPipeline, hs, hd, hh, h1, h2, h3]
        | ok _ =>
          have h4 := generate_delete_free w nh
          rcases hg : generate_github_actions w nh with ⟨rg, evg, ng⟩
          rw [hg] at h4
          cases rg with
          | error e => simp [mainPipeline, hs, hd, hh, hg, h1, h2, h3, h4]
          | ok _ => simp [mainPipeline, hs, hd, hh, hg, h1, h2, h3, h4]
  · rcases h : w.exec 0 deleteCmd with s | r <;> simp [cleanup_minikube, run, h]

end Atlas
